import Mathlib

/-!
Verification development for the sapio transaction-template core
(`src/sapio/src/template/mod.rs`).

The file embeds the Rust data model shallowly:
* machine integers (`u32`, the `u64` satoshi `Amount`) become `Nat`, with
  explicit `% 2 ^ w` / `< 2 ^ w` bounds where overflow matters;
* `serde_json::Value` becomes the inductive `Json`;
* `HashMap<String, Value>` becomes an association list compared as a set of
  key/value pairs, exactly like `HashMap`'s `PartialEq`;
* serde serialization of a struct becomes a function to a list of
  key/value pairs (a JSON object), following the field attributes
  (`rename`, `skip_serializing_if`, `flatten`, `with = as_sat` / `as_sat::opt`);
* Rust panics (overflowing `Amount` addition) become `Option.none`;
* components of the repository that are not part of the given source
  (the `Builder`, the `Output` struct, the CTV digest of spec section 4.2)
  are modelled from the specification text and are marked as such.
-/

/-- A JSON value, the model of `serde_json::Value`
(null / bool / number / string / array / object). -/
inductive Json where
  | null : Json
  | bool : Bool → Json
  | num : Int → Json
  | str : String → Json
  | arr : List Json → Json
  | obj : List (String × Json) → Json
deriving Repr

mutual

/-- Structural equality of JSON values. -/
def Json.beq : Json → Json → Bool
  | .null, .null => true
  | .bool a, .bool b => a == b
  | .num a, .num b => a == b
  | .str a, .str b => a == b
  | .arr a, .arr b => Json.beqList a b
  | .obj a, .obj b => Json.beqObj a b
  | _, _ => false

/-- Pointwise equality of JSON arrays. -/
def Json.beqList : List Json → List Json → Bool
  | [], [] => true
  | a :: as, b :: bs => Json.beq a b && Json.beqList as bs
  | _, _ => false

/-- Pointwise equality of JSON objects (ordered pair lists). -/
def Json.beqObj : List (String × Json) → List (String × Json) → Bool
  | [], [] => true
  | (ka, va) :: as, (kb, vb) :: bs =>
      ka == kb && Json.beq va vb && Json.beqObj as bs
  | _, _ => false

end

/-- An opaque guard clause (`sapio_base::Clause`), an external collaborator:
the core only stores and serializes it. -/
structure Clause where
  id : Nat
deriving Repr, DecidableEq

/-- Lookup in an association list modelling `HashMap::get`. -/
def hashMapGet (m : List (String × Json)) (k : String) : Option Json :=
  (m.find? (fun p => p.1 == k)).map (·.2)

/-- `HashMap<String, Value>` equality: same length, and every key/value pair
of the left map is present in the right one (insertion order irrelevant),
mirroring `HashMap`'s `PartialEq` implementation. -/
def hashMapEqB (a b : List (String × Json)) : Bool :=
  a.length == b.length &&
    a.all (fun p =>
      match hashMapGet b p.1 with
      | some v => Json.beq p.2 v
      | none => false)

/-- `TemplateMetadata`: a label, a catch-all `extra` map, and a color,
in the source's field order. -/
structure TemplateMetadata where
  label : Option String
  extra : List (String × Json)
  color : Option String
deriving Repr

namespace TemplateMetadata

/-- `TemplateMetadata::new()`: all fields at their default. -/
def new : TemplateMetadata :=
  { color := none, label := none, extra := [] }

/-- The derived `PartialEq` of `TemplateMetadata`: field-wise equality,
with the `extra` hash map compared as a set of key/value pairs. -/
def beqMeta (a b : TemplateMetadata) : Bool :=
  a.label == b.label && hashMapEqB a.extra b.extra && a.color == b.color

/-- `TemplateMetadata::skip_serializing`: the receiver equals
`TemplateMetadata::new()`. -/
def skip_serializing (m : TemplateMetadata) : Bool :=
  beqMeta m TemplateMetadata.new

end TemplateMetadata

/-- A transaction input of the external `bitcoin::Transaction`: only its
sequence number is digest-relevant (scripts/witnesses are out of scope). -/
structure TxIn where
  sequence : Nat
deriving Repr, DecidableEq

/-- A transaction output of the external `bitcoin::Transaction`:
an 8-byte satoshi value and the locking-script bytes. -/
structure TxOut where
  value : Nat
  script_pubkey : List Nat
deriving Repr, DecidableEq

/-- The external `bitcoin::Transaction` body: version, locktime, inputs,
outputs (section 6 of the spec fixes this as the consumed encoding). -/
structure Transaction where
  version : Nat
  lock_time : Nat
  input : List TxIn
  output : List TxOut
deriving Repr, DecidableEq

/-- Modelled from the spec: the `Output` struct of `template/output.rs`
(declared but not included in the given source). Section 3 specifies it as
an amount, an opaque locking condition, and a metadata sidecar. -/
structure Output where
  amount : Nat
  locking_condition : List Nat
  metadata : TemplateMetadata
deriving Repr

/-- `Template`: guards, cached digest, digest index, value bounds, metadata,
transaction body and resolved outputs, in the source's field order. -/
structure Template where
  guards : List Clause
  ctv : Nat
  ctv_index : Nat
  max : Nat
  min_feerate_sats_vbyte : Option Nat
  metadata_map_s2s : TemplateMetadata
  tx : Transaction
  outputs : List Output
deriving Repr

namespace Template

/-- `Template::hash`: return the cached template hash `self.ctv`. -/
def hash (t : Template) : Nat :=
  t.ctv

/-- One step of the `Amount` fold: `b + a` with rust-bitcoin's `Add for
Amount`, which is `checked_add(..).expect(..)` — a panic (modelled as
`none`) as soon as the running `u64` sum overflows. -/
def amountAddStep (b : Option Nat) (a : Nat) : Option Nat :=
  b.bind (fun x => if x + a < 2 ^ 64 then some (x + a) else none)

/-- `Template::total_amount`: fold the outputs' amounts from zero in output
order; `none` models the panic of an overflowing `Amount` addition. -/
def total_amount (t : Template) : Option Nat :=
  (t.outputs.map Output.amount).foldl amountAddStep (some 0)

end Template

/-- The mathematical sum of the outputs' amounts. -/
def sumAmounts (outputs : List Output) : Nat :=
  (outputs.map Output.amount).sum

/-- Modelled from the spec: a stand-in for the external SHA-256 collaborator
(`bitcoin::hashes::sha256`, out of scope per section 1). The spec only
requires a fixed deterministic function from byte strings to a 32-byte
digest, so a concrete deterministic mixing function suffices. -/
def sha256Model (bytes : List Nat) : Nat :=
  bytes.foldl (fun h b => (h * 1099511628211 + b + 1) % 2 ^ 256) 1469598103934665603

/-- Serialize a value as 4 little-endian bytes (the ledger's 4-byte fields). -/
def le32 (n : Nat) : List Nat :=
  [n % 256, n / 2 ^ 8 % 256, n / 2 ^ 16 % 256, n / 2 ^ 24 % 256]

/-- Serialize a value as 8 little-endian bytes (the ledger's 8-byte values). -/
def le64 (n : Nat) : List Nat :=
  [n % 256, n / 2 ^ 8 % 256, n / 2 ^ 16 % 256, n / 2 ^ 24 % 256,
   n / 2 ^ 32 % 256, n / 2 ^ 40 % 256, n / 2 ^ 48 % 256, n / 2 ^ 56 % 256]

/-- A digest value rendered as its 32 little-endian bytes, for feeding
sub-hashes back into the top-level concatenation. -/
def digestBytes (h : Nat) : List Nat :=
  (List.range 32).map (fun i => h / 2 ^ (8 * i) % 256)

/-- Modelled from the spec (section 4.2): the hash of all sequence numbers —
concatenate the serialized sequence number of every input and hash once. -/
def sequencesHash (tx : Transaction) : Nat :=
  sha256Model ((tx.input.map (fun i => le32 i.sequence)).flatten)

/-- Modelled from the spec (sections 4.2 and 6): the hash of all outputs —
concatenate each output's 8-byte value and length-prefixed script and hash
the concatenation once. -/
def outputsHash (tx : Transaction) : Nat :=
  sha256Model
    ((tx.output.map (fun o => le64 o.value ++ le32 o.script_pubkey.length ++ o.script_pubkey)).flatten)

/-- Modelled from the spec (section 4.2): the CTV digest. Digest-relevant
fields in the fixed concatenation order: version, locktime, input count,
hash of all sequence numbers, output count, hash of all outputs, and the
scoped input index; the concatenation is hashed once. -/
def ctvDigest (tx : Transaction) (idx : Nat) : Nat :=
  sha256Model
    (le32 tx.version ++ le32 tx.lock_time ++ le32 tx.input.length ++
      digestBytes (sequencesHash tx) ++ le32 tx.output.length ++
      digestBytes (outputsHash tx) ++ le32 idx)

/-- Modelled from the spec (section 7): the finalize-time errors of the
Builder (`template/builder.rs` is not part of the given source). -/
inductive CompilationError where
  | EmptyOutputSet : CompilationError
  | AmountExceeded : CompilationError
  | AlreadyFinalized : CompilationError
deriving Repr, DecidableEq

/-- Modelled from the spec (sections 2 and 4.3): the Builder's pending
state — accumulated outputs and guards, the declared bounds, the metadata
sidecar, and the `Accumulating`/`Finalized` phase of the state machine. -/
structure Builder where
  outputs : List Output
  guards : List Clause
  max : Nat
  min_feerate_sats_vbyte : Option Nat
  metadata : TemplateMetadata
  finalized : Bool
deriving Repr

/-- Modelled from the spec (section 4.3, step 2): materialize the
transaction body deterministically from the pending outputs — fixed
version/locktime policy, a single placeholder input, output order equal to
insertion order. -/
def materializeTx (outputs : List Output) : Transaction :=
  { version := 2
    lock_time := 0
    input := [{ sequence := 4294967295 }]
    output := outputs.map (fun o => { value := o.amount, script_pubkey := o.locking_condition }) }

namespace Builder

/-- Modelled from the spec (section 4.3): `finalize(ctv_index)`. Validates
the pending total against `max` (step 1, `AmountExceeded`), rejects an empty
output set and a consumed Builder, then materializes the transaction body,
computes the digest scoped to `ctv_index`, and freezes the Template. A
failure returns the Builder unchanged; success moves it to `Finalized`. -/
def finalize (b : Builder) (ctv_index : Nat) :
    Except CompilationError Template × Builder :=
  if b.finalized then (Except.error CompilationError.AlreadyFinalized, b)
  else if b.max < sumAmounts b.outputs then (Except.error CompilationError.AmountExceeded, b)
  else if b.outputs.isEmpty then (Except.error CompilationError.EmptyOutputSet, b)
  else
    let tx := materializeTx b.outputs
    (Except.ok
      { guards := b.guards
        ctv := ctvDigest tx ctv_index
        ctv_index := ctv_index
        max := b.max
        min_feerate_sats_vbyte := b.min_feerate_sats_vbyte
        metadata_map_s2s := b.metadata
        tx := tx
        outputs := b.outputs },
      { b with finalized := true })

end Builder

/-- Serialize an opaque clause (external collaborator's representation). -/
def serializeClause (c : Clause) : Json :=
  Json.num c.id

/-- Serialize a transaction input (external encoding). -/
def serializeTxIn (i : TxIn) : Json :=
  Json.obj [("sequence", Json.num i.sequence)]

/-- Serialize a transaction output (external encoding). -/
def serializeTxOut (o : TxOut) : Json :=
  Json.obj [("value", Json.num o.value),
            ("script_pubkey", Json.arr (o.script_pubkey.map Json.num))]

/-- Serialize the external transaction body. -/
def serializeTransaction (tx : Transaction) : Json :=
  Json.obj [("version", Json.num tx.version),
            ("lock_time", Json.num tx.lock_time),
            ("input", Json.arr (tx.input.map serializeTxIn)),
            ("output", Json.arr (tx.output.map serializeTxOut))]

/-- Serialize `TemplateMetadata` as a JSON object, following the serde
attributes of the source: `label` with `skip_serializing_if Option::is_none`,
the `extra` map flattened into the object, `color` with
`skip_serializing_if Option::is_none`. -/
def serializeTemplateMetadata (m : TemplateMetadata) : List (String × Json) :=
  (match m.label with
   | some s => [("label", Json.str s)]
   | none => []) ++
  m.extra ++
  (match m.color with
   | some s => [("color", Json.str s)]
   | none => [])

/-- Serialize a Sapio output record (spec section 6: amount and metadata). -/
def serializeOutput (o : Output) : Json :=
  Json.obj [("amount", Json.num o.amount),
            ("script", Json.arr (o.locking_condition.map Json.num)),
            ("metadata", Json.obj (serializeTemplateMetadata o.metadata))]

/-- Serialize a `Template` as a JSON object, following the serde attributes
of the source: the `rename`s, `max` through `as_sat`,
`min_feerate_sats_vbyte` through `as_sat::opt` (which writes `null` for
`None` — the field carries no `skip_serializing_if`), and
`metadata_map_s2s` with `skip_serializing_if TemplateMetadata::skip_serializing`. -/
def serializeTemplate (t : Template) : List (String × Json) :=
  [("additional_preconditions", Json.arr (t.guards.map serializeClause)),
   ("precomputed_template_hash", Json.str (toString t.ctv)),
   ("precomputed_template_hash_idx", Json.num t.ctv_index),
   ("max_amount_sats", Json.num t.max)] ++
  [("min_feerate_sats_vbyte",
    match t.min_feerate_sats_vbyte with
    | some a => Json.num a
    | none => Json.null)] ++
  (if TemplateMetadata.skip_serializing t.metadata_map_s2s then []
   else [("metadata_map_s2s", Json.obj (serializeTemplateMetadata t.metadata_map_s2s))]) ++
  [("transaction_literal", serializeTransaction t.tx),
   ("outputs_info", Json.arr (t.outputs.map serializeOutput))]

/-- The keys present in a serialized object. -/
def serKeys (l : List (String × Json)) : List String :=
  l.map (·.1)

/-- Lookup of a key in a serialized object (first occurrence). -/
def jsonLookup (l : List (String × Json)) (k : String) : Option Json :=
  (l.find? (fun p => p.1 == k)).map (·.2)

/-- Deserialize one optional-string field of `TemplateMetadata` (serde's
`Option<String>` with `default`): missing or `null` gives `None`, a string
gives `Some`, anything else is a type error. -/
def readOptString (l : List (String × Json)) (k : String) : Option (Option String) :=
  match jsonLookup l k with
  | none => some none
  | some Json.null => some none
  | some (Json.str s) => some (some s)
  | some _ => none

/-- Deserialize `TemplateMetadata` from a JSON object, following the serde
derive: the named fields `label` and `color` are taken by key (defaulting
to `None` when absent), and `flatten` collects every remaining key into
`extra`. -/
def deserializeTemplateMetadata (l : List (String × Json)) :
    Option TemplateMetadata :=
  (readOptString l "label").bind (fun lab =>
    (readOptString l "color").bind (fun col =>
      some { label := lab
             extra := l.filter (fun p => !(p.1 == "label") && !(p.1 == "color"))
             color := col }))

namespace Template

/-- The state-passing form of the `&self` method `Template::hash`: the
result together with the receiver it leaves behind. -/
def hashCall (t : Template) : Nat × Template :=
  (Template.hash t, t)

/-- The state-passing form of the `&self` method `Template::total_amount`:
the result together with the receiver it leaves behind. -/
def totalAmountCall (t : Template) : Option Nat × Template :=
  (Template.total_amount t, t)

end Template

/-- The empty hash map is equal (as a set of pairs) only to the empty map. -/
lemma hashMapEqB_nil_iff (a : List (String × Json)) :
    hashMapEqB a [] = true ↔ a = [] := by
  cases a with
  | nil => simp [hashMapEqB]
  | cons p l => simp [hashMapEqB]

/-- `skip_serializing` holds exactly when every field is at its default. -/
lemma skip_serializing_iff (m : TemplateMetadata) :
    TemplateMetadata.skip_serializing m = true ↔
      m.label = none ∧ m.color = none ∧ m.extra = [] := by
  unfold TemplateMetadata.skip_serializing TemplateMetadata.beqMeta TemplateMetadata.new
  simp [Bool.and_eq_true, hashMapEqB_nil_iff]
  tauto

/-- Once the `Amount` fold has panicked, it stays panicked. -/
lemma foldl_amountAddStep_none (l : List Nat) :
    List.foldl Template.amountAddStep none l = none := by
  induction l with
  | nil => rfl
  | cons a l ih => simpa [Template.amountAddStep] using ih

/-- The `Amount` fold from an in-range accumulator returns the accumulated
sum when it stays below `2 ^ 64` and panics otherwise. -/
lemma foldl_amountAddStep_some (l : List Nat) (x : Nat) (hx : x < 2 ^ 64) :
    List.foldl Template.amountAddStep (some x) l =
      if x + l.sum < 2 ^ 64 then some (x + l.sum) else none := by
  induction l generalizing x with
  | nil =>
      simp only [List.foldl_nil, List.sum_nil, Nat.add_zero]
      rw [if_pos hx]
  | cons a l ih =>
      by_cases h : x + a < 2 ^ 64
      · rw [List.foldl_cons,
          show Template.amountAddStep (some x) a = some (x + a) by
            show (if x + a < 2 ^ 64 then some (x + a) else none) = some (x + a)
            rw [if_pos h],
          ih (x + a) h, List.sum_cons, ← Nat.add_assoc]
      · have hge : ¬ x + (a + l.sum) < 2 ^ 64 := by omega
        rw [List.foldl_cons,
          show Template.amountAddStep (some x) a = none by
            show (if x + a < 2 ^ 64 then some (x + a) else none) = none
            rw [if_neg h],
          foldl_amountAddStep_none, List.sum_cons, if_neg hge]

/-- `total_amount` returns the mathematical sum exactly when it is
representable, and panics otherwise. -/
lemma total_amount_eq (t : Template) :
    Template.total_amount t =
      if sumAmounts t.outputs < 2 ^ 64 then some (sumAmounts t.outputs) else none := by
  have h := foldl_amountAddStep_some (t.outputs.map Output.amount) 0 (by norm_num)
  simpa [Template.total_amount, sumAmounts] using h

/-- Anatomy of a successful `finalize`: the Builder was accumulating, the
pending total respects `max`, and every field of the produced Template is
determined by the pending state. -/
lemma finalize_ok_anatomy (b : Builder) (idx : Nat) (t : Template) (r : Builder)
    (h : Builder.finalize b idx = (Except.ok t, r)) :
    b.finalized = false ∧ sumAmounts b.outputs ≤ b.max ∧
      t.guards = b.guards ∧
      t.ctv = ctvDigest (materializeTx b.outputs) idx ∧
      t.ctv_index = idx ∧
      t.max = b.max ∧
      t.min_feerate_sats_vbyte = b.min_feerate_sats_vbyte ∧
      t.metadata_map_s2s = b.metadata ∧
      t.tx = materializeTx b.outputs ∧
      t.outputs = b.outputs := by
  unfold Builder.finalize at h
  by_cases hf : b.finalized = true
  · simp [hf] at h
  · rw [Bool.not_eq_true] at hf
    rw [hf] at h
    simp only [Bool.false_eq_true, if_false] at h
    by_cases hm : b.max < sumAmounts b.outputs
    · simp [hm] at h
    · rw [if_neg hm] at h
      by_cases he : b.outputs.isEmpty
      · simp [he] at h
      · rw [if_neg he] at h
        have ht : Except.ok (ε := CompilationError)
            { guards := b.guards
              ctv := ctvDigest (materializeTx b.outputs) idx
              ctv_index := idx
              max := b.max
              min_feerate_sats_vbyte := b.min_feerate_sats_vbyte
              metadata_map_s2s := b.metadata
              tx := materializeTx b.outputs
              outputs := b.outputs } = Except.ok t := (Prod.mk.injEq _ _ _ _ ▸ h).1
        have ht' := (Except.ok.injEq _ _ ▸ ht)
        refine ⟨hf, by omega, ?_, ?_, ?_, ?_, ?_, ?_, ?_, ?_⟩ <;>
          rw [← ht']

/-- A concrete 300-satoshi output (spec section 8, scenario 6). -/
def sampleOutput1 : Output :=
  { amount := 300, locking_condition := [0, 81], metadata := TemplateMetadata.new }

/-- A concrete 400-satoshi output (spec section 8, scenario 6). -/
def sampleOutput2 : Output :=
  { amount := 400, locking_condition := [1, 82], metadata := TemplateMetadata.new }

/-- A concrete accumulating Builder: `max = 1000`, outputs of 300 and 400. -/
def sampleBuilder : Builder :=
  { outputs := [sampleOutput1, sampleOutput2]
    guards := [{ id := 7 }]
    max := 1000
    min_feerate_sats_vbyte := none
    metadata := TemplateMetadata.new
    finalized := false }

/-- The Template that `sampleBuilder.finalize 0` produces. -/
def sampleTemplate : Template :=
  { guards := [{ id := 7 }]
    ctv := ctvDigest (materializeTx [sampleOutput1, sampleOutput2]) 0
    ctv_index := 0
    max := 1000
    min_feerate_sats_vbyte := none
    metadata_map_s2s := TemplateMetadata.new
    tx := materializeTx [sampleOutput1, sampleOutput2]
    outputs := [sampleOutput1, sampleOutput2] }

/-- `sampleBuilder` after a successful finalize. -/
def sampleBuilderDone : Builder :=
  { sampleBuilder with finalized := true }

/-- C1: every Template produced by `finalize()` has its cached `ctv` field
equal to the digest of section 4.2 applied to its `tx` and `ctv_index`;
recomputing the digest from the stored transaction body and index
reproduces the cached value, and `hash()` returns that value. -/
theorem finalize_digest_consistency :
    ∀ (b : Builder) (idx : Nat) (t : Template) (r : Builder),
      Builder.finalize b idx = (Except.ok t, r) →
      t.ctv = ctvDigest t.tx t.ctv_index ∧
        Template.hash t = ctvDigest t.tx t.ctv_index := by
  intro b idx t r h
  obtain ⟨-, -, -, hctv, hidx, -, -, -, htx, -⟩ := finalize_ok_anatomy b idx t r h
  have hh : Template.hash t = t.ctv := rfl
  rw [hh, hctv, htx, hidx]
  exact ⟨rfl, rfl⟩

/-- Witness for C1: the concrete Builder of spec section 8 scenario 6. -/
theorem finalize_digest_consistency_witness :
    sampleTemplate.ctv = ctvDigest sampleTemplate.tx sampleTemplate.ctv_index ∧
      Template.hash sampleTemplate = ctvDigest sampleTemplate.tx sampleTemplate.ctv_index :=
  finalize_digest_consistency sampleBuilder 0 sampleTemplate sampleBuilderDone rfl

/-- C2: `total_amount()` returns nothing but the sum of the outputs'
amounts (folded from zero in output order), and a Template produced by
`finalize()` has that total defined and bounded by its `max` field. -/
theorem total_amount_conservation :
    (∀ (t : Template) (s : Nat),
      Template.total_amount t = some s → s = sumAmounts t.outputs) ∧
    (∀ (b : Builder) (idx : Nat) (t : Template) (r : Builder),
      b.max < 2 ^ 64 → Builder.finalize b idx = (Except.ok t, r) →
      Template.total_amount t = some (sumAmounts t.outputs) ∧
        sumAmounts t.outputs ≤ t.max) := by
  constructor
  · intro t s h
    rw [total_amount_eq] at h
    by_cases hs : sumAmounts t.outputs < 2 ^ 64
    · rw [if_pos hs] at h
      exact (Option.some.inj h).symm
    · rw [if_neg hs] at h
      exact absurd h (by simp)
  · intro b idx t r hmax h
    obtain ⟨-, hsum, -, -, -, hm, -, -, -, hout⟩ := finalize_ok_anatomy b idx t r h
    have hlt : sumAmounts t.outputs < 2 ^ 64 := by rw [hout]; omega
    refine ⟨?_, ?_⟩
    · rw [total_amount_eq, if_pos hlt]
    · rw [hout, hm]
      exact hsum

/-- Witness for C2: the concrete 300 + 400 Template under `max = 1000`. -/
theorem total_amount_conservation_witness :
    (700 = sumAmounts sampleTemplate.outputs) ∧
      (Template.total_amount sampleTemplate = some (sumAmounts sampleTemplate.outputs) ∧
        sumAmounts sampleTemplate.outputs ≤ sampleTemplate.max) :=
  ⟨total_amount_conservation.1 sampleTemplate 700 rfl,
   total_amount_conservation.2 sampleBuilder 0 sampleTemplate sampleBuilderDone
     (by decide) rfl⟩

/-- C7: the state-passing forms of the `&self` methods `hash()` and
`total_amount()` leave every field of the receiver unchanged. -/
theorem template_methods_frame :
    ∀ t : Template,
      ((Template.hashCall t).2.guards = t.guards ∧
        (Template.hashCall t).2.ctv = t.ctv ∧
        (Template.hashCall t).2.ctv_index = t.ctv_index ∧
        (Template.hashCall t).2.max = t.max ∧
        (Template.hashCall t).2.min_feerate_sats_vbyte = t.min_feerate_sats_vbyte ∧
        (Template.hashCall t).2.metadata_map_s2s = t.metadata_map_s2s ∧
        (Template.hashCall t).2.tx = t.tx ∧
        (Template.hashCall t).2.outputs = t.outputs) ∧
      ((Template.totalAmountCall t).2.guards = t.guards ∧
        (Template.totalAmountCall t).2.ctv = t.ctv ∧
        (Template.totalAmountCall t).2.ctv_index = t.ctv_index ∧
        (Template.totalAmountCall t).2.max = t.max ∧
        (Template.totalAmountCall t).2.min_feerate_sats_vbyte = t.min_feerate_sats_vbyte ∧
        (Template.totalAmountCall t).2.metadata_map_s2s = t.metadata_map_s2s ∧
        (Template.totalAmountCall t).2.tx = t.tx ∧
        (Template.totalAmountCall t).2.outputs = t.outputs) := by
  intro t
  exact ⟨⟨rfl, rfl, rfl, rfl, rfl, rfl, rfl, rfl⟩,
         ⟨rfl, rfl, rfl, rfl, rfl, rfl, rfl, rfl⟩⟩

/-- A Template whose cached `ctv` (42) disagrees with the digest of its own
transaction body and index, as could arise from deserialization or direct
field construction. -/
def mismatchTemplate : Template :=
  { guards := []
    ctv := 42
    ctv_index := 0
    max := 0
    min_feerate_sats_vbyte := none
    metadata_map_s2s := TemplateMetadata.new
    tx := materializeTx [sampleOutput1]
    outputs := [sampleOutput1] }

/-- A second Template sharing `mismatchTemplate`'s `ctv` but differing in
another field. -/
def mismatchTemplate2 : Template :=
  { mismatchTemplate with max := 999 }

/-- C9: `hash()` returns exactly the stored `ctv` field, and its result
depends on no other field (templates agreeing on `ctv` hash alike),
without recomputation or verification. -/
theorem hash_is_cached_field_only :
    (∀ t : Template, Template.hash t = t.ctv) ∧
    (∀ u v : Template, u.ctv = v.ctv → Template.hash u = Template.hash v) := by
  constructor
  · intro t
    rfl
  · intro u v h
    have hu : Template.hash u = u.ctv := rfl
    have hv : Template.hash v = v.ctv := rfl
    rw [hu, hv, h]

set_option maxRecDepth 16384 in
/-- Witness for C9: a Template whose cached `ctv` provably disagrees with
the recomputed digest still has `hash()` return the cached value. -/
theorem hash_is_cached_field_only_witness :
    Template.hash mismatchTemplate = Template.hash mismatchTemplate2 ∧
      Template.hash mismatchTemplate = mismatchTemplate.ctv ∧
      mismatchTemplate.ctv ≠ ctvDigest mismatchTemplate.tx mismatchTemplate.ctv_index :=
  ⟨hash_is_cached_field_only.2 mismatchTemplate mismatchTemplate2 rfl,
   hash_is_cached_field_only.1 mismatchTemplate,
   by decide⟩

/-- An output of `2 ^ 63` satoshis; two of them overflow the 64-bit range. -/
def overflowOutput : Output :=
  { amount := 2 ^ 63, locking_condition := [], metadata := TemplateMetadata.new }

/-- A Template whose outputs' amounts sum to `2 ^ 64`, past the
representable `Amount` maximum. -/
def overflowTemplate : Template :=
  { guards := []
    ctv := 0
    ctv_index := 0
    max := 0
    min_feerate_sats_vbyte := none
    metadata_map_s2s := TemplateMetadata.new
    tx := materializeTx [overflowOutput, overflowOutput]
    outputs := [overflowOutput, overflowOutput] }

/-- C10: `total_amount()` panics (returns `none` in the model) exactly when
the outputs' sum leaves the 64-bit satoshi range; a concrete overflowing
Template aborts, and under the representability precondition the panic
branch is unreachable and the sum is returned. -/
theorem total_amount_overflow_partiality :
    (∀ t : Template,
      Template.total_amount t = none ↔ 2 ^ 64 ≤ sumAmounts t.outputs) ∧
    Template.total_amount overflowTemplate = none ∧
    (∀ t : Template, sumAmounts t.outputs < 2 ^ 64 →
      Template.total_amount t = some (sumAmounts t.outputs)) := by
  refine ⟨?_, ?_, ?_⟩
  · intro t
    rw [total_amount_eq]
    by_cases hs : sumAmounts t.outputs < 2 ^ 64
    · rw [if_pos hs]
      constructor
      · intro h
        exact absurd h (by simp)
      · intro h
        omega
    · rw [if_neg hs]
      constructor
      · intro _
        omega
      · intro _
        rfl
  · rfl
  · intro t hs
    rw [total_amount_eq, if_pos hs]

/-- Witness for C10: the in-range Template of spec section 8 scenario 6
satisfies the representability precondition and gets its sum back. -/
theorem total_amount_overflow_partiality_witness :
    Template.total_amount sampleTemplate = some (sumAmounts sampleTemplate.outputs) :=
  total_amount_overflow_partiality.2.2 sampleTemplate (by decide)

/-- C3: the emptiness test `skip_serializing` returns true exactly on
metadata equal to `TemplateMetadata::new()` — no label, no color, empty
extra map (compared as a set of pairs) — and `new()` itself passes it. -/
theorem metadata_emptiness_characterization :
    TemplateMetadata.skip_serializing TemplateMetadata.new = true ∧
    ∀ m : TemplateMetadata,
      TemplateMetadata.skip_serializing m = true ↔
        (m.label = none ∧ m.color = none ∧ m.extra = []) :=
  ⟨rfl, fun m => skip_serializing_iff m⟩

/-- A concrete Template with `min_feerate_sats_vbyte` unset. -/
def tMinNone : Template :=
  { guards := [{ id := 3 }]
    ctv := 5
    ctv_index := 0
    max := 100
    min_feerate_sats_vbyte := none
    metadata_map_s2s := TemplateMetadata.new
    tx := materializeTx [sampleOutput1]
    outputs := [sampleOutput1] }

set_option maxRecDepth 16384 in
/-- Counterexample to C4: a Template with `min_feerate_sats_vbyte = None`
still serializes the field — its key is present, bound to `null`, because
the source uses `as_sat::opt` without a `skip_serializing_if`. -/
theorem min_feerate_none_still_serialized :
    tMinNone.min_feerate_sats_vbyte = none ∧
      "min_feerate_sats_vbyte" ∈ serKeys (serializeTemplate tMinNone) ∧
      jsonLookup (serializeTemplate tMinNone) "min_feerate_sats_vbyte" =
        some Json.null := by
  refine ⟨rfl, by decide, rfl⟩

/-- C4 as amended: when `min_feerate_sats_vbyte` is unset, the serialized
Template carries the field with value `null` instead of omitting it. -/
theorem min_feerate_none_serialized_as_null :
    ∀ t : Template, t.min_feerate_sats_vbyte = none →
      jsonLookup (serializeTemplate t) "min_feerate_sats_vbyte" =
        some Json.null := by
  intro t h
  simp only [serializeTemplate, h, List.cons_append, List.nil_append]
  simp [jsonLookup, List.find?]

/-- Witness for the amended C4: the concrete Template `tMinNone`. -/
theorem min_feerate_none_serialized_as_null_witness :
    jsonLookup (serializeTemplate tMinNone) "min_feerate_sats_vbyte" =
      some Json.null :=
  min_feerate_none_serialized_as_null tMinNone rfl

/-- C5: an empty metadata value is omitted entirely from the serialized
Template, and a `None` label or color contributes no key to the serialized
metadata (provided the open extension map does not itself carry that key). -/
theorem empty_fields_omitted_from_serialization :
    (∀ t : Template, TemplateMetadata.skip_serializing t.metadata_map_s2s = true →
      "metadata_map_s2s" ∉ serKeys (serializeTemplate t)) ∧
    (∀ m : TemplateMetadata, m.label = none → "label" ∉ serKeys m.extra →
      "label" ∉ serKeys (serializeTemplateMetadata m)) ∧
    (∀ m : TemplateMetadata, m.color = none → "color" ∉ serKeys m.extra →
      "color" ∉ serKeys (serializeTemplateMetadata m)) := by
  refine ⟨?_, ?_, ?_⟩
  · intro t h
    simp only [serializeTemplate, h, if_true, List.cons_append, List.nil_append]
    simp [serKeys]
  · intro m hl hx hmem
    simp only [serializeTemplateMetadata, hl, List.nil_append] at hmem
    cases hc : m.color with
    | none =>
        rw [hc] at hmem
        simp only [List.append_nil] at hmem
        exact hx hmem
    | some c =>
        rw [hc] at hmem
        simp only [serKeys, List.map_append, List.mem_append] at hmem
        rcases hmem with h1 | h2
        · exact hx h1
        · simp at h2
  · intro m hc hx hmem
    simp only [serializeTemplateMetadata, hc, List.append_nil] at hmem
    cases hl : m.label with
    | none =>
        rw [hl] at hmem
        simp only [List.nil_append] at hmem
        exact hx hmem
    | some s =>
        rw [hl] at hmem
        simp only [serKeys, List.map_append, List.mem_append] at hmem
        rcases hmem with h1 | h2
        · simp at h1
        · exact hx h2

/-- Metadata with only a color set (label at default, extra without the
reserved keys). -/
def mColorOnly : TemplateMetadata :=
  { label := none, extra := [("note", Json.num 1)], color := some "blue" }

/-- Metadata with only a label set (color at default, extra without the
reserved keys). -/
def mLabelOnly : TemplateMetadata :=
  { label := some "pay", extra := [("note", Json.num 1)], color := none }

/-- Witness for C5: concrete empty metadata on a finalized Template, and
concrete metadata values with a single default field. -/
theorem empty_fields_omitted_from_serialization_witness :
    ("metadata_map_s2s" ∉ serKeys (serializeTemplate sampleTemplate)) ∧
      ("label" ∉ serKeys (serializeTemplateMetadata mColorOnly)) ∧
      ("color" ∉ serKeys (serializeTemplateMetadata mLabelOnly)) :=
  ⟨empty_fields_omitted_from_serialization.1 sampleTemplate rfl,
   empty_fields_omitted_from_serialization.2.1 mColorOnly rfl (by decide),
   empty_fields_omitted_from_serialization.2.2 mLabelOnly rfl (by decide)⟩

/-- C6: on an accumulating Builder, `finalize` fails with `AmountExceeded`
exactly when the pending outputs' total exceeds the declared `max`, and any
failure returns the Builder unchanged (still accumulating, callable again). -/
theorem finalize_amount_exceeded_iff :
    ∀ (b : Builder) (idx : Nat), b.finalized = false →
      (((Builder.finalize b idx).1 =
          Except.error CompilationError.AmountExceeded) ↔
        b.max < sumAmounts b.outputs) ∧
      (∀ e : CompilationError,
        (Builder.finalize b idx).1 = Except.error e →
        (Builder.finalize b idx).2 = b) := by
  intro b idx hf
  unfold Builder.finalize
  rw [hf]
  simp only [Bool.false_eq_true, if_false]
  by_cases hm : b.max < sumAmounts b.outputs
  · rw [if_pos hm]
    exact ⟨by simp [hm], fun e _ => rfl⟩
  · rw [if_neg hm]
    by_cases he : b.outputs.isEmpty
    · rw [if_pos he]
      refine ⟨⟨fun hcontra => ?_, fun hlt => absurd hlt hm⟩, fun e _ => rfl⟩
      exact absurd (Except.error.inj hcontra) (by simp)
    · rw [if_neg he]
      refine ⟨⟨fun hcontra => ?_, fun hlt => absurd hlt hm⟩, fun e hcontra => ?_⟩
      · simp at hcontra
      · simp at hcontra

/-- The over-budget Builder of spec section 8, scenario 7:
`max = 500`, one pending output of 600. -/
def overBuilder : Builder :=
  { outputs := [{ amount := 600, locking_condition := [9], metadata := TemplateMetadata.new }]
    guards := []
    max := 500
    min_feerate_sats_vbyte := none
    metadata := TemplateMetadata.new
    finalized := false }

/-- Witness for C6: finalizing the over-budget Builder fails with
`AmountExceeded` and hands the Builder back unchanged. -/
theorem finalize_amount_exceeded_iff_witness :
    ((Builder.finalize overBuilder 0).1 =
        Except.error CompilationError.AmountExceeded) ∧
      ((Builder.finalize overBuilder 0).2 = overBuilder) :=
  ⟨(finalize_amount_exceeded_iff overBuilder 0 rfl).1.mpr (by decide),
   (finalize_amount_exceeded_iff overBuilder 0 rfl).2
     CompilationError.AmountExceeded
     ((finalize_amount_exceeded_iff overBuilder 0 rfl).1.mpr (by decide))⟩

/-- C8: serializing metadata equal to `TemplateMetadata::new()` and
deserializing the result yields the empty metadata again. -/
theorem empty_metadata_roundtrip :
    ∀ m : TemplateMetadata, TemplateMetadata.skip_serializing m = true →
      deserializeTemplateMetadata (serializeTemplateMetadata m) =
          some TemplateMetadata.new ∧
        TemplateMetadata.skip_serializing TemplateMetadata.new = true := by
  intro m h
  obtain ⟨hl, hc, hx⟩ := (skip_serializing_iff m).mp h
  refine ⟨?_, rfl⟩
  simp only [serializeTemplateMetadata, hl, hc, hx, List.append_nil, List.nil_append]
  rfl

/-- Witness for C8: the round trip on `TemplateMetadata.new` itself. -/
theorem empty_metadata_roundtrip_witness :
    deserializeTemplateMetadata (serializeTemplateMetadata TemplateMetadata.new) =
        some TemplateMetadata.new ∧
      TemplateMetadata.skip_serializing TemplateMetadata.new = true :=
  empty_metadata_roundtrip TemplateMetadata.new rfl
